import Mathlib

/-!
Shallow embedding of the adaptive difficulty controller of
`src/adaptive_engine.py` (class `AdaptiveEngine` with `AdaptationConfig`).

Modelling conventions:
* difficulty levels are the strings `"EASY"`, `"MEDIUM"`, `"HARD"` exactly as
  in the Python source; the dictionaries `DIFFICULTY_MAP` / `REVERSE_MAP` are
  `Option`-valued functions (`none` models a `KeyError`);
* Python floats are modelled as exact rationals `ℚ`; the sentinel
  `float('inf')` used for the average time of an empty time list is `⊤` in
  `WithTop ℚ`, whose order agrees with IEEE comparisons against finite
  constants;
* the mutable engine object is a structure, and `get_next_difficulty` passes
  the state explicitly, returning `none` when the Python method would raise.
-/

/-- The `rule_based_thresholds` dictionary of `AdaptationConfig`,
with its two keys `'high'` and `'low'`. -/
structure RuleBasedThresholds where
  high : ℚ
  low : ℚ
deriving DecidableEq, Repr

/-- `AdaptationConfig` dataclass: thresholds, lookback window and the
minimum number of attempts before a change. -/
structure AdaptationConfig where
  rule_based_thresholds : RuleBasedThresholds := ⟨75, 50⟩
  lookback_window : ℤ := 5
  min_attempts_before_change : ℤ := 3
deriving DecidableEq, Repr

/-- The default `AdaptationConfig()` value. -/
def AdaptationConfig.mkDefault : AdaptationConfig := {}

/-- `AdaptiveEngine.DIFFICULTY_LEVELS`. -/
def DIFFICULTY_LEVELS : List String := ["EASY", "MEDIUM", "HARD"]

/-- `AdaptiveEngine.DIFFICULTY_MAP`; a missing key is `none` (KeyError). -/
def DIFFICULTY_MAP (d : String) : Option ℤ :=
  if d = "EASY" then some 0
  else if d = "MEDIUM" then some 1
  else if d = "HARD" then some 2
  else none

/-- `AdaptiveEngine.REVERSE_MAP`; a missing key is `none` (KeyError). -/
def REVERSE_MAP (l : ℤ) : Option String :=
  if l = 0 then some "EASY"
  else if l = 1 then some "MEDIUM"
  else if l = 2 then some "HARD"
  else none

/-- One entry of `self.history`: the dict appended by `get_next_difficulty`. -/
structure DecisionRecord where
  attempt : ℤ
  from_ : String
  to_ : String
  accuracy : ℚ
  avg_time : ℚ
deriving DecidableEq, Repr

/-- The mutable state of an `AdaptiveEngine` instance. -/
structure AdaptiveEngine where
  config : AdaptationConfig
  attempt_count : ℤ
  history : List DecisionRecord
deriving DecidableEq, Repr

/-- `AdaptiveEngine.__init__(config=None)`: `self.config = config or
AdaptationConfig()`, counter `0`, empty history.  (A dataclass instance is
always truthy, so `or` picks the default exactly when `config is None`.) -/
def AdaptiveEngine.init (config : Option AdaptationConfig) : AdaptiveEngine :=
  { config := config.getD AdaptationConfig.mkDefault
    attempt_count := 0
    history := [] }

/-- `sum(recent_performance)`: Python sums booleans as 0/1, giving the count
of `True` entries. -/
def boolSum (perf : List Bool) : ℕ := perf.count true

/-- `np.mean` of a non-empty list, as an exact rational. -/
def listMean (times : List ℚ) : ℚ := times.sum / (times.length : ℚ)

/-- `AdaptiveEngine._adapt_rule_based`.  Returns `none` exactly when the
Python code raises `KeyError` on `DIFFICULTY_MAP[current_difficulty]`. -/
def adapt_rule_based (config : AdaptationConfig) (current_difficulty : String)
    (recent_performance : List Bool) (recent_times : List ℚ) : Option String :=
  if recent_performance.isEmpty then some current_difficulty
  else if (recent_performance.length : ℤ) < config.min_attempts_before_change then
    some current_difficulty
  else
    let accuracy : ℚ := ((boolSum recent_performance : ℚ) /
      (recent_performance.length : ℚ)) * 100
    let avg_time : WithTop ℚ :=
      if recent_times.isEmpty then ⊤ else ((listMean recent_times : ℚ) : WithTop ℚ)
    let thresholds := config.rule_based_thresholds
    (DIFFICULTY_MAP current_difficulty).bind fun current_level =>
      let next_level : ℤ :=
        if accuracy ≥ thresholds.high ∧ avg_time < ((10 : ℚ) : WithTop ℚ) then
          min (current_level + 1) 2
        else if accuracy ≤ thresholds.low ∨ avg_time > ((20 : ℚ) : WithTop ℚ) then
          max (current_level - 1) 0
        else
          if accuracy > 65 ∧ avg_time < ((12 : ℚ) : WithTop ℚ) then
            min (current_level + 1) 2
          else if accuracy < 45 ∨ avg_time > ((18 : ℚ) : WithTop ℚ) then
            max (current_level - 1) 0
          else current_level
      REVERSE_MAP next_level

/-- `AdaptiveEngine.get_next_difficulty`: increments the attempt counter,
runs the rule-based adaptation, appends the log record and returns the next
difficulty together with the updated engine state.  `none` models the
`KeyError` the Python method propagates (counter already incremented, record
not appended). -/
def get_next_difficulty (e : AdaptiveEngine) (current_difficulty : String)
    (recent_performance : List Bool) (recent_times : List ℚ) :
    Option (String × AdaptiveEngine) :=
  let attempt_count := e.attempt_count + 1
  (adapt_rule_based e.config current_difficulty recent_performance
      recent_times).map fun next_diff =>
    (next_diff,
      { e with
        attempt_count := attempt_count
        history := e.history ++
          [{ attempt := attempt_count
             from_ := current_difficulty
             to_ := next_diff
             accuracy := if recent_performance.isEmpty then 0 else
               ((boolSum recent_performance : ℚ) /
                 (recent_performance.length : ℚ)) * 100
             avg_time := if recent_times.isEmpty then 0 else
               listMean recent_times }] })

/-- `AdaptiveEngine.get_adaptation_history`. -/
def get_adaptation_history (e : AdaptiveEngine) : List DecisionRecord :=
  e.history

/-- `AdaptiveEngine.reset_history`. -/
def reset_history (e : AdaptiveEngine) : AdaptiveEngine :=
  { e with history := [], attempt_count := 0 }

/-- The tier algorithm as the specification states it (claims C1/C5):
accuracy = (count of true / length) * 100, avg_time = mean of the times or
positive infinity when the time list is empty; Tier A, then Tier B, then the
Tier C middle band, with the strict/non-strict comparisons as written. -/
def spec_next_level (config : AdaptationConfig) (level : ℤ)
    (recent_performance : List Bool) (recent_times : List ℚ) : ℤ :=
  let accuracy : ℚ := ((recent_performance.count true : ℚ) /
    (recent_performance.length : ℚ)) * 100
  let avg_time : WithTop ℚ :=
    if recent_times.isEmpty then ⊤
    else ((recent_times.sum / (recent_times.length : ℚ) : ℚ) : WithTop ℚ)
  if accuracy ≥ config.rule_based_thresholds.high ∧
      avg_time < ((10 : ℚ) : WithTop ℚ) then
    min (level + 1) 2
  else if accuracy ≤ config.rule_based_thresholds.low ∨
      avg_time > ((20 : ℚ) : WithTop ℚ) then
    max (level - 1) 0
  else if accuracy > 65 ∧ avg_time < ((12 : ℚ) : WithTop ℚ) then
    min (level + 1) 2
  else if accuracy < 45 ∨ avg_time > ((18 : ℚ) : WithTop ℚ) then
    max (level - 1) 0
  else level

/-! ### Helper lemmas -/

theorem DIFFICULTY_MAP_range (d : String) (l : ℤ) (h : DIFFICULTY_MAP d = some l) :
    0 ≤ l ∧ l ≤ 2 := by
  unfold DIFFICULTY_MAP at h
  split_ifs at h <;> simp_all <;> omega

theorem map_of_mem (d : String) (h : d ∈ DIFFICULTY_LEVELS) :
    ∃ l, DIFFICULTY_MAP d = some l ∧ 0 ≤ l ∧ l ≤ 2 := by
  simp only [DIFFICULTY_LEVELS, List.mem_cons, List.not_mem_nil, or_false] at h
  rcases h with rfl | rfl | rfl
  · exact ⟨0, by decide, by decide, by decide⟩
  · exact ⟨1, by decide, by decide, by decide⟩
  · exact ⟨2, by decide, by decide, by decide⟩

theorem reverse_roundtrip (l : ℤ) (h0 : 0 ≤ l) (h2 : l ≤ 2) :
    ∃ d, REVERSE_MAP l = some d ∧ DIFFICULTY_MAP d = some l ∧
      d ∈ DIFFICULTY_LEVELS := by
  have hl : l = 0 ∨ l = 1 ∨ l = 2 := by omega
  rcases hl with rfl | rfl | rfl
  · exact ⟨"EASY", by decide, by decide, by decide⟩
  · exact ⟨"MEDIUM", by decide, by decide, by decide⟩
  · exact ⟨"HARD", by decide, by decide, by decide⟩

theorem spec_next_level_range (cfg : AdaptationConfig) (level : ℤ)
    (perf : List Bool) (times : List ℚ) (h0 : 0 ≤ level) (h2 : level ≤ 2) :
    0 ≤ spec_next_level cfg level perf times ∧
      spec_next_level cfg level perf times ≤ 2 := by
  simp only [spec_next_level]
  split_ifs <;> constructor <;> omega

theorem adapt_short (cfg : AdaptationConfig) (cur : String) (perf : List Bool)
    (times : List ℚ)
    (h : perf.isEmpty = true ∨ (perf.length : ℤ) < cfg.min_attempts_before_change) :
    adapt_rule_based cfg cur perf times = some cur := by
  cases hE : perf.isEmpty with
  | true => simp [adapt_rule_based, hE]
  | false =>
    rcases h with h | h
    · rw [hE] at h; cases h
    · simp [adapt_rule_based, hE, h]

theorem adapt_long (cfg : AdaptationConfig) (cur : String) (level : ℤ)
    (perf : List Bool) (times : List ℚ)
    (hne : perf.isEmpty = false)
    (hlen : ¬ ((perf.length : ℤ) < cfg.min_attempts_before_change))
    (hmap : DIFFICULTY_MAP cur = some level) :
    adapt_rule_based cfg cur perf times =
      REVERSE_MAP (spec_next_level cfg level perf times) := by
  simp only [adapt_rule_based, spec_next_level, boolSum, listMean, hne, hlen,
    Bool.false_eq_true, if_false, hmap, Option.some_bind]

theorem get_next_difficulty_eq (e : AdaptiveEngine) (cur d : String)
    (perf : List Bool) (times : List ℚ)
    (h : adapt_rule_based e.config cur perf times = some d) :
    get_next_difficulty e cur perf times = some (d,
      { e with
        attempt_count := e.attempt_count + 1
        history := e.history ++
          [{ attempt := e.attempt_count + 1
             from_ := cur
             to_ := d
             accuracy := if perf.isEmpty then 0 else
               ((boolSum perf : ℚ) / (perf.length : ℚ)) * 100
             avg_time := if times.isEmpty then 0 else listMean times }] }) := by
  simp only [get_next_difficulty, h, Option.map_some']

theorem adapt_total (cfg : AdaptationConfig) (cur : String) (perf : List Bool)
    (times : List ℚ) (hcur : cur ∈ DIFFICULTY_LEVELS) :
    ∃ d, adapt_rule_based cfg cur perf times = some d ∧
      d ∈ DIFFICULTY_LEVELS := by
  cases hE : perf.isEmpty with
  | true => exact ⟨cur, adapt_short cfg cur perf times (Or.inl hE), hcur⟩
  | false =>
    by_cases hL : (perf.length : ℤ) < cfg.min_attempts_before_change
    · exact ⟨cur, adapt_short cfg cur perf times (Or.inr hL), hcur⟩
    · obtain ⟨level, hmap, h0, h2⟩ := map_of_mem cur hcur
      obtain ⟨r0, r2⟩ := spec_next_level_range cfg level perf times h0 h2
      obtain ⟨d, hrev, hmapd, hdmem⟩ := reverse_roundtrip _ r0 r2
      exact ⟨d, (adapt_long cfg cur level perf times hE hL hmap).trans hrev, hdmem⟩

theorem spec_next_level_empty_times (cfg : AdaptationConfig) (level : ℤ)
    (perf : List Bool) :
    spec_next_level cfg level perf [] = max (level - 1) 0 := by
  simp only [spec_next_level, List.isEmpty_nil, if_true]
  rw [if_neg, if_pos]
  · exact Or.inr (WithTop.coe_lt_top (20 : ℚ))
  · rintro ⟨-, h⟩
    exact not_top_lt h

theorem adapt_spec_level (e : AdaptiveEngine) (cur : String) (level : ℤ)
    (perf : List Bool) (times : List ℚ)
    (hmap : DIFFICULTY_MAP cur = some level)
    (hmin : 1 ≤ e.config.min_attempts_before_change)
    (hlen : e.config.min_attempts_before_change ≤ (perf.length : ℤ)) :
    ∃ d e', get_next_difficulty e cur perf times = some (d, e') ∧
      REVERSE_MAP (spec_next_level e.config level perf times) = some d ∧
      DIFFICULTY_MAP d = some (spec_next_level e.config level perf times) := by
  obtain ⟨h0, h2⟩ := DIFFICULTY_MAP_range cur level hmap
  have hne : perf.isEmpty = false := by
    cases perf with
    | nil => simp at hlen; omega
    | cons a l => rfl
  have hnotlt : ¬ ((perf.length : ℤ) < e.config.min_attempts_before_change) := by
    omega
  obtain ⟨r0, r2⟩ := spec_next_level_range e.config level perf times h0 h2
  obtain ⟨d, hrev, hmapd, _⟩ := reverse_roundtrip _ r0 r2
  exact ⟨d, _,
    get_next_difficulty_eq e cur d perf times
      ((adapt_long e.config cur level perf times hne hnotlt hmap).trans hrev),
    hrev, hmapd⟩

/-! ### Claim theorems -/

/-- C1: for every config (respecting the spec invariant
`min_attempts_before_change ≥ 1`), every valid current difficulty, every
correctness window of length at least `min_attempts_before_change` and every
time window, `get_next_difficulty` returns the difficulty whose rank is given
by the tier algorithm (Tiers A, B, C in order, with accuracy
`count true / length * 100` and average time `⊤` on an empty time list), as
transcribed by `spec_next_level`. -/
theorem C1_tier_algorithm (e : AdaptiveEngine) (cur : String) (level : ℤ)
    (perf : List Bool) (times : List ℚ)
    (hmap : DIFFICULTY_MAP cur = some level)
    (hmin : 1 ≤ e.config.min_attempts_before_change)
    (hlen : e.config.min_attempts_before_change ≤ (perf.length : ℤ)) :
    ∃ d e', get_next_difficulty e cur perf times = some (d, e') ∧
      REVERSE_MAP (spec_next_level e.config level perf times) = some d ∧
      DIFFICULTY_MAP d = some (spec_next_level e.config level perf times) :=
  adapt_spec_level e cur level perf times hmap hmin hlen

/-- Witness for C1: spec Scenario 1 — default config, current `MEDIUM`,
four correct answers with times `[5, 6, 4, 7]`. -/
theorem C1_tier_algorithm_witness :
    DIFFICULTY_MAP "MEDIUM" = some 1 ∧
    (1 : ℤ) ≤ (AdaptiveEngine.init none).config.min_attempts_before_change ∧
    (AdaptiveEngine.init none).config.min_attempts_before_change ≤
      (([true, true, true, true] : List Bool).length : ℤ) ∧
    ∃ d e', get_next_difficulty (AdaptiveEngine.init none) "MEDIUM"
        [true, true, true, true] [5, 6, 4, 7] = some (d, e') ∧
      REVERSE_MAP (spec_next_level (AdaptiveEngine.init none).config 1
        [true, true, true, true] [5, 6, 4, 7]) = some d ∧
      DIFFICULTY_MAP d = some (spec_next_level (AdaptiveEngine.init none).config 1
        [true, true, true, true] [5, 6, 4, 7]) :=
  ⟨by decide, by decide, by decide,
    C1_tier_algorithm (AdaptiveEngine.init none) "MEDIUM" 1
      [true, true, true, true] [5, 6, 4, 7] (by decide) (by decide) (by decide)⟩

/-- C2: with a non-empty correctness window shorter than
`min_attempts_before_change`, the decision returns the current difficulty
unchanged, and the appended record carries the accuracy and average time
computed from the supplied sequences. -/
theorem C2_below_min_attempts (e : AdaptiveEngine) (cur : String)
    (perf : List Bool) (times : List ℚ)
    (hne : perf ≠ [])
    (hlen : (perf.length : ℤ) < e.config.min_attempts_before_change) :
    ∃ e', get_next_difficulty e cur perf times = some (cur, e') ∧
      e'.history = e.history ++
        [{ attempt := e.attempt_count + 1
           from_ := cur
           to_ := cur
           accuracy := ((perf.count true : ℚ) / (perf.length : ℚ)) * 100
           avg_time := if times.isEmpty then 0 else
             times.sum / (times.length : ℚ) }] := by
  have hE : perf.isEmpty = false := by
    cases perf with
    | nil => exact absurd rfl hne
    | cons a l => rfl
  refine ⟨_, get_next_difficulty_eq e cur cur perf times
    (adapt_short e.config cur perf times (Or.inr hlen)), ?_⟩
  simp [hE, boolSum, listMean]

/-- Witness for C2: default config (minimum 3), one correct answer. -/
theorem C2_below_min_attempts_witness :
    ([true] : List Bool) ≠ [] ∧
    (([true] : List Bool).length : ℤ) <
      (AdaptiveEngine.init none).config.min_attempts_before_change ∧
    ∃ e', get_next_difficulty (AdaptiveEngine.init none) "EASY" [true] [4] =
        some ("EASY", e') ∧
      e'.history = (AdaptiveEngine.init none).history ++
        [{ attempt := (AdaptiveEngine.init none).attempt_count + 1
           from_ := "EASY"
           to_ := "EASY"
           accuracy := ((([true] : List Bool).count true : ℚ) /
             (([true] : List Bool).length : ℚ)) * 100
           avg_time := if ([4] : List ℚ).isEmpty then 0 else
             ([4] : List ℚ).sum / ((([4] : List ℚ)).length : ℚ) }] :=
  ⟨by decide, by decide,
    C2_below_min_attempts (AdaptiveEngine.init none) "EASY" [true] [4]
      (by decide) (by decide)⟩

/-- C3: every call with a valid current difficulty increments the attempt
counter by exactly 1 and appends exactly one record, whose sequence number is
the post-increment counter, whose `from` field is the input difficulty and
whose `to` field is the returned difficulty. -/
theorem C3_counter_and_history (e : AdaptiveEngine) (cur : String)
    (perf : List Bool) (times : List ℚ)
    (hcur : cur ∈ DIFFICULTY_LEVELS) :
    ∃ d e', get_next_difficulty e cur perf times = some (d, e') ∧
      e'.attempt_count = e.attempt_count + 1 ∧
      ∃ r, e'.history = e.history ++ [r] ∧
        r.attempt = e'.attempt_count ∧ r.from_ = cur ∧ r.to_ = d := by
  obtain ⟨d, hd, _⟩ := adapt_total e.config cur perf times hcur
  exact ⟨d, _, get_next_difficulty_eq e cur d perf times hd, rfl,
    _, rfl, rfl, rfl, rfl⟩

/-- Witness for C3: default engine, current `HARD`, empty windows. -/
theorem C3_counter_and_history_witness :
    "HARD" ∈ DIFFICULTY_LEVELS ∧
    ∃ d e', get_next_difficulty (AdaptiveEngine.init none) "HARD" [] [] =
        some (d, e') ∧
      e'.attempt_count = (AdaptiveEngine.init none).attempt_count + 1 ∧
      ∃ r, e'.history = (AdaptiveEngine.init none).history ++ [r] ∧
        r.attempt = e'.attempt_count ∧ r.from_ = "HARD" ∧ r.to_ = d :=
  ⟨by decide,
    C3_counter_and_history (AdaptiveEngine.init none) "HARD" [] [] (by decide)⟩

/-- Counterexample to C4 as stated: with an empty correctness list but a
non-empty time list `[5]`, the appended record stores `avg_time = 5`, not 0
(the code stores `np.mean(recent_times)` whenever `recent_times` is
non-empty, independently of the correctness list). -/
theorem C4_counterexample :
    (get_next_difficulty (AdaptiveEngine.init none) "MEDIUM" [] [5]).map
        (fun p => p.2.history.map fun r => (r.accuracy, r.avg_time)) =
      some [((0 : ℚ), (5 : ℚ))] ∧
    ((5 : ℚ) ≠ 0) := by
  constructor
  · simp only [get_next_difficulty, adapt_rule_based, List.isEmpty_nil,
      if_true, Option.map_some']
    norm_num [AdaptiveEngine.init, listMean]
  · norm_num

/-- C4 (amended): with an empty correctness list the decision returns the
current difficulty unchanged, still increments the attempt counter, and
appends a record whose accuracy is 0 and whose avg_time is 0 when the time
list is also empty, and otherwise the mean of the supplied times. -/
theorem C4_empty_correctness (e : AdaptiveEngine) (cur : String)
    (times : List ℚ) :
    ∃ e', get_next_difficulty e cur [] times = some (cur, e') ∧
      e'.attempt_count = e.attempt_count + 1 ∧
      e'.history = e.history ++
        [{ attempt := e.attempt_count + 1
           from_ := cur
           to_ := cur
           accuracy := 0
           avg_time := if times.isEmpty then 0 else
             times.sum / (times.length : ℚ) }] := by
  refine ⟨_, get_next_difficulty_eq e cur cur [] times
    (adapt_short e.config cur [] times (Or.inl rfl)), rfl, ?_⟩
  simp [listMean]

/-- C5: with at least `min_attempts_before_change` correctness entries (and
the spec invariant `min_attempts_before_change ≥ 1`) but an empty time list,
the average time is treated as positive infinity, the weak branch (Tier B)
fires, and the result is one level down clamped at `EASY` — rank
`max (level - 1) 0` — regardless of the accuracy. -/
theorem C5_empty_times (e : AdaptiveEngine) (cur : String) (level : ℤ)
    (perf : List Bool)
    (hmap : DIFFICULTY_MAP cur = some level)
    (hmin : 1 ≤ e.config.min_attempts_before_change)
    (hlen : e.config.min_attempts_before_change ≤ (perf.length : ℤ)) :
    ∃ d e', get_next_difficulty e cur perf ([] : List ℚ) = some (d, e') ∧
      DIFFICULTY_MAP d = some (max (level - 1) 0) := by
  obtain ⟨d, e', hget, _, hmapd⟩ :=
    adapt_spec_level e cur level perf [] hmap hmin hlen
  exact ⟨d, e', hget, spec_next_level_empty_times e.config level perf ▸ hmapd⟩

/-- Witness for C5: default config, current `HARD`, all answers correct,
no times — the result still drops to rank `max (2 - 1) 0 = 1` (`MEDIUM`). -/
theorem C5_empty_times_witness :
    DIFFICULTY_MAP "HARD" = some 2 ∧
    (1 : ℤ) ≤ (AdaptiveEngine.init none).config.min_attempts_before_change ∧
    (AdaptiveEngine.init none).config.min_attempts_before_change ≤
      (([true, true, true] : List Bool).length : ℤ) ∧
    ∃ d e', get_next_difficulty (AdaptiveEngine.init none) "HARD"
        [true, true, true] ([] : List ℚ) = some (d, e') ∧
      DIFFICULTY_MAP d = some (max ((2 : ℤ) - 1) 0) :=
  ⟨by decide, by decide, by decide,
    C5_empty_times (AdaptiveEngine.init none) "HARD" 2 [true, true, true]
      (by decide) (by decide) (by decide)⟩

/-- C6: for every input with a valid current difficulty, the call succeeds,
the returned difficulty is one of `EASY`, `MEDIUM`, `HARD` and its rank lies
in `[0, 2]`; since no rank below 0 or above 2 exists, `EASY` can never
decrease and `HARD` can never increase (saturating clamp). -/
theorem C6_result_in_range (e : AdaptiveEngine) (cur : String)
    (perf : List Bool) (times : List ℚ)
    (hcur : cur ∈ DIFFICULTY_LEVELS) :
    ∃ d e' l, get_next_difficulty e cur perf times = some (d, e') ∧
      d ∈ DIFFICULTY_LEVELS ∧ DIFFICULTY_MAP d = some l ∧ 0 ≤ l ∧ l ≤ 2 := by
  obtain ⟨d, hd, hdm⟩ := adapt_total e.config cur perf times hcur
  obtain ⟨l, hl, h0, h2⟩ := map_of_mem d hdm
  exact ⟨d, _, l, get_next_difficulty_eq e cur d perf times hd, hdm, hl, h0, h2⟩

/-- Witness for C6: spec Scenario 4 — current `HARD`, Tier A conditions met,
result stays `HARD` (clamped). -/
theorem C6_result_in_range_witness :
    "HARD" ∈ DIFFICULTY_LEVELS ∧
    ∃ d e' l, get_next_difficulty (AdaptiveEngine.init none) "HARD"
        [true, true, true] [3, 3, 3] = some (d, e') ∧
      d ∈ DIFFICULTY_LEVELS ∧ DIFFICULTY_MAP d = some l ∧ 0 ≤ l ∧ l ≤ 2 :=
  ⟨by decide,
    C6_result_in_range (AdaptiveEngine.init none) "HARD" [true, true, true]
      [3, 3, 3] (by decide)⟩

/-- C7: the decision is deterministic — two engines with the same config,
given the same current difficulty, correctness window and time window, return
the same next difficulty and append records with the same accuracy and
average time (only the attempt sequence number may differ). -/
theorem C7_deterministic (e1 e2 : AdaptiveEngine) (cur : String)
    (perf : List Bool) (times : List ℚ)
    (hcfg : e1.config = e2.config)
    (d1 d2 : String) (e1' e2' : AdaptiveEngine)
    (h1 : get_next_difficulty e1 cur perf times = some (d1, e1'))
    (h2 : get_next_difficulty e2 cur perf times = some (d2, e2')) :
    d1 = d2 ∧ ∃ r1 r2,
      e1'.history.getLast? = some r1 ∧ e2'.history.getLast? = some r2 ∧
      r1.accuracy = r2.accuracy ∧ r1.avg_time = r2.avg_time := by
  simp only [get_next_difficulty, Option.map_eq_some'] at h1 h2
  obtain ⟨a1, ha1, hf1⟩ := h1
  obtain ⟨a2, ha2, hf2⟩ := h2
  rw [hcfg, ha2, Option.some.injEq] at ha1
  subst ha1
  injection hf1 with hd1 he1
  injection hf2 with hd2 he2
  subst hd1
  subst hd2
  subst he1
  subst he2
  exact ⟨rfl, _, _, List.getLast?_concat _, List.getLast?_concat _, rfl, rfl⟩

/-- Witness for C7: two calls from the same freshly constructed engine with
one correct answer in 2 seconds. -/
theorem C7_deterministic_witness :
    "EASY" = "EASY" ∧ ∃ r1 r2,
      ({ config := AdaptationConfig.mkDefault, attempt_count := 1,
         history := [{ attempt := 1, from_ := "EASY", to_ := "EASY",
                       accuracy := 100, avg_time := 2 }] } :
        AdaptiveEngine).history.getLast? = some r1 ∧
      ({ config := AdaptationConfig.mkDefault, attempt_count := 1,
         history := [{ attempt := 1, from_ := "EASY", to_ := "EASY",
                       accuracy := 100, avg_time := 2 }] } :
        AdaptiveEngine).history.getLast? = some r2 ∧
      r1.accuracy = r2.accuracy ∧ r1.avg_time = r2.avg_time :=
  C7_deterministic (AdaptiveEngine.init none) (AdaptiveEngine.init none)
    "EASY" [true] [2] rfl "EASY" "EASY" _ _
    (by norm_num [get_next_difficulty, adapt_rule_based, AdaptiveEngine.init,
      AdaptationConfig.mkDefault, boolSum, listMean])
    (by norm_num [get_next_difficulty, adapt_rule_based, AdaptiveEngine.init,
      AdaptationConfig.mkDefault, boolSum, listMean])

/-- C8: after `reset_history` the history accessor returns `[]` and the
attempt counter is 0, and `reset_history` is idempotent. -/
theorem C8_reset (e : AdaptiveEngine) :
    get_adaptation_history (reset_history e) = [] ∧
    (reset_history e).attempt_count = 0 ∧
    reset_history (reset_history e) = reset_history e :=
  ⟨rfl, rfl, rfl⟩

/-- Counterexample to C9 as stated: `AdaptiveEngine.__init__` performs no
validation, so construction with a config violating every stated invariant
(`low = 90 ≥ high = 10`, `min_attempts_before_change = 0 < 1`) succeeds and
the resulting engine even serves decision calls normally — no configuration
error is ever raised. -/
theorem C9_counterexample :
    ¬ ((AdaptationConfig.mk ⟨10, 90⟩ 5 0).rule_based_thresholds.low <
        (AdaptationConfig.mk ⟨10, 90⟩ 5 0).rule_based_thresholds.high) ∧
    ¬ (1 ≤ (AdaptationConfig.mk ⟨10, 90⟩ 5 0).min_attempts_before_change) ∧
    AdaptiveEngine.init (some (AdaptationConfig.mk ⟨10, 90⟩ 5 0)) =
      { config := AdaptationConfig.mk ⟨10, 90⟩ 5 0, attempt_count := 0,
        history := [] } ∧
    (get_next_difficulty
        (AdaptiveEngine.init (some (AdaptationConfig.mk ⟨10, 90⟩ 5 0)))
        "EASY" [] []).isSome = true := by
  refine ⟨by norm_num, by norm_num, rfl, ?_⟩
  simp [get_next_difficulty, adapt_rule_based]

/-- C9 (amended): construction never fails — any `AdaptationConfig`, valid or
invalid, is stored unvalidated with counter 0 and empty history, and the
subsystem raises no configuration error: decision calls on the resulting
engine succeed for every valid current difficulty. -/
theorem C9_no_validation (config : AdaptationConfig) (cur : String)
    (perf : List Bool) (times : List ℚ)
    (hcur : cur ∈ DIFFICULTY_LEVELS) :
    AdaptiveEngine.init (some config) =
      { config := config, attempt_count := 0, history := [] } ∧
    (get_next_difficulty (AdaptiveEngine.init (some config))
        cur perf times).isSome = true := by
  refine ⟨rfl, ?_⟩
  obtain ⟨d, hd, -⟩ := adapt_total config cur perf times hcur
  rw [get_next_difficulty_eq _ _ _ _ _ hd]
  rfl

/-- Witness for C9 (amended): the invalid config of the counterexample. -/
theorem C9_no_validation_witness :
    "EASY" ∈ DIFFICULTY_LEVELS ∧
    (AdaptiveEngine.init (some (AdaptationConfig.mk ⟨10, 90⟩ 5 0)) =
      { config := AdaptationConfig.mk ⟨10, 90⟩ 5 0, attempt_count := 0,
        history := [] } ∧
    (get_next_difficulty
        (AdaptiveEngine.init (some (AdaptationConfig.mk ⟨10, 90⟩ 5 0)))
        "EASY" [true] [1]).isSome = true) :=
  ⟨by decide,
    C9_no_validation (AdaptationConfig.mk ⟨10, 90⟩ 5 0) "EASY" [true] [1]
      (by decide)⟩

/-- C10: when the correctness window is empty or shorter than
`min_attempts_before_change`, the decision returns the input
`current_difficulty` verbatim and never fails, even for a string that is not
one of `EASY`/`MEDIUM`/`HARD`: the `DIFFICULTY_MAP` lookup is reached only on
the adaptation path. -/
theorem C10_short_window_any_string (e : AdaptiveEngine) (cur : String)
    (perf : List Bool) (times : List ℚ)
    (h : perf = [] ∨ (perf.length : ℤ) < e.config.min_attempts_before_change) :
    ∃ e', get_next_difficulty e cur perf times = some (cur, e') := by
  have hs : adapt_rule_based e.config cur perf times = some cur := by
    apply adapt_short
    rcases h with rfl | h
    · exact Or.inl rfl
    · exact Or.inr h
  exact ⟨_, get_next_difficulty_eq e cur cur perf times hs⟩

/-- Witness for C10: a nonsense difficulty string with a one-entry window
under the default minimum of 3. -/
theorem C10_short_window_any_string_witness :
    (([true] : List Bool) = [] ∨
      ((([true] : List Bool)).length : ℤ) <
        (AdaptiveEngine.init none).config.min_attempts_before_change) ∧
    ∃ e', get_next_difficulty (AdaptiveEngine.init none) "NOT_A_LEVEL"
        [true] [] = some ("NOT_A_LEVEL", e') :=
  ⟨Or.inr (by decide),
    C10_short_window_any_string (AdaptiveEngine.init none) "NOT_A_LEVEL"
      [true] [] (Or.inr (by decide))⟩
